import Mathlib

/-!
Shallow embedding of the panel-synchronization client in
`src/api/pmpanel/pmpanel.go` (package `pmpanel`).

Modelling conventions:
* Go `float64` limit values are modelled as exact rationals (`ℚ`); the Go
  conversion `uint64(x)` on a non-negative value truncates toward zero and is
  modelled as `⌊x⌋.toNat`.
* Byte slices (`[]byte` response bodies) are modelled as `String`.
* A compiled regular expression (`regexp.MustCompile(s)`) is modelled by its
  source text `s`; the regex engine is an external library.
* File IO in `readLocalRuleList` is modelled by an explicit oracle
  `FileSystem : String → Option (List String)` mapping a path to the list of
  lines of a readable file (`none` = the file cannot be opened).
* The HTTP transport (resty) is an external collaborator; each operation that
  talks to the panel takes the transport outcome (status, body, error) as an
  argument, and operations additionally report the list of request paths they
  issue, so that "performs no request" is expressible.
-/

namespace NoharaNode

/-- Modelled from the spec: `api.DetectRule` (declared outside `src/`), a
traffic-audit rule with a panel identifier (local rules use the sentinel `-1`)
and a compiled text-matching pattern, modelled by its source text. -/
structure DetectRule where
  ID : Int
  Pattern : String
  deriving Repr, DecidableEq

/-- Modelled from the spec: `api.Config` (declared outside `src/`), the client
construction configuration, with the fields `New` reads. -/
structure Config where
  APIHost : String
  NodeID : String
  Key : String
  NodeType : String
  EnableVless : Bool
  VlessFlow : String
  SpeedLimit : ℚ
  DeviceLimit : Int
  RuleListPath : String
  Timeout : Int
  deriving Repr

/-- `APIClient` from `pmpanel.go` (the embedded resty client, which only holds
transport configuration, is omitted). -/
structure APIClient where
  APIHost : String
  NodeID : String
  Key : String
  NodeType : String
  EnableVless : Bool
  VlessFlow : String
  SpeedLimit : ℚ
  DeviceLimit : Int
  LocalRuleList : List DetectRule
  deriving Repr

/-- Oracle for the local file system: a path maps to the lines of the file,
or `none` when the file cannot be opened. -/
def FileSystem : Type := String → Option (List String)

/-- `readLocalRuleList` from `pmpanel.go`: empty path yields the empty list
without consulting the file system; an unreadable file is logged and yields
the empty list; otherwise every scanned line becomes one rule with sentinel
identifier `-1` and the line compiled as a pattern. -/
def readLocalRuleList (path : String) (fs : FileSystem) : List DetectRule :=
  if path = "" then []
  else
    match fs path with
    | none => []
    | some lines => lines.map (fun line => { ID := -1, Pattern := line })

/-- Go `strings.ToLower`, modelled by lowercasing each character (Lean's
`String.toLower` computes the same string but through a position-based
recursion that does not evaluate inside the kernel). -/
def stringsToLower (s : String) : String :=
  ⟨s.data.map Char.toLower⟩

/-- `New` from `pmpanel.go`: validates the lowercased node type against the
three supported spellings and returns `none` (Go `nil`) otherwise; on success
builds the client, storing the original (un-lowercased) `NodeType` and the
locally loaded rule list.  Transport setup (retry count, timeout, base URL,
authorization header, query parameters) configures the omitted resty client
and is not part of the returned state. -/
def New (apiConfig : Config) (fs : FileSystem) : Option APIClient :=
  let nodeType := stringsToLower apiConfig.NodeType
  if nodeType ≠ "shadowsocks" ∧ nodeType ≠ "v2ray" ∧ nodeType ≠ "trojan" then
    none
  else
    let localRuleList := readLocalRuleList apiConfig.RuleListPath fs
    some
      { APIHost := apiConfig.APIHost
        NodeID := apiConfig.NodeID
        Key := apiConfig.Key
        NodeType := apiConfig.NodeType
        EnableVless := apiConfig.EnableVless
        VlessFlow := apiConfig.VlessFlow
        SpeedLimit := apiConfig.SpeedLimit
        DeviceLimit := apiConfig.DeviceLimit
        LocalRuleList := localRuleList }

/-- Outcome of one transport exchange: the HTTP status code and the response
body (`res.StatusCode()` and `res.Body()`). -/
structure Response where
  statusCode : ℕ
  body : String
  deriving Repr, DecidableEq

/-- The classified errors produced by `parseResponse` via `fmt.Errorf`; each
constructor records the data interpolated into the corresponding format
string. -/
inductive ApiError where
  | requestFailed (url : String) (errMsg : String)
  | badRequest (url : String) (body : String)
  | unauthorized (url : String) (body : String)
  | forbidden (url : String) (body : String)
  | statusCodeError (url : String) (status : ℕ) (body : String)
  deriving Repr, DecidableEq

/-- `assembleURL` from `pmpanel.go`. -/
def assembleURL (c : APIClient) (path : String) : String :=
  c.APIHost ++ path

/-- `parseResponse` from `pmpanel.go`: a non-nil transport error short-circuits
into `requestFailed` with the assembled URL; then a non-200 status is switched
into `badRequest` / `unauthorized` / `forbidden` / `statusCodeError`; a 200
status passes the body through. -/
def parseResponse (c : APIClient) (res : Response) (path : String)
    (err : Option String) : Except ApiError String :=
  match err with
  | some e => .error (.requestFailed (assembleURL c path) e)
  | none =>
    if res.statusCode ≠ 200 then
      if res.statusCode = 400 then
        .error (.badRequest (assembleURL c path) res.body)
      else if res.statusCode = 401 then
        .error (.unauthorized (assembleURL c path) res.body)
      else if res.statusCode = 403 then
        .error (.forbidden (assembleURL c path) res.body)
      else
        .error (.statusCodeError (assembleURL c path) res.statusCode res.body)
    else
      .ok res.body

/-- Modelled from the spec: `NodeInfoResponse` (declared outside `src/`), the
panel node-config payload, with the fields the live code reads; the panel speed
limit is in Mbps. -/
structure NodeInfoResponse where
  SpeedLimit : ℚ
  Port : ℕ
  Method : String
  ServerKey : String
  deriving Repr, DecidableEq

/-- Modelled from the spec: `api.NodeInfo` (declared outside `src/`), the
canonical node descriptor, with the fields the live code sets; the speed limit
is in bytes/sec (`uint64`). -/
structure NodeInfo where
  NodeType : String
  NodeID : String
  Port : ℕ
  SpeedLimit : ℕ
  TransportProtocol : String
  CypherMethod : String
  ServerKey : String
  deriving Repr, DecidableEq

/-- `ParseV2rayNodeResponse` from `pmpanel.go`: the body is fully commented
out; the function returns `nil, nil`. -/
def ParseV2rayNodeResponse (c : APIClient) (nodeInfoResponse : NodeInfoResponse) :
    Except String (Option NodeInfo) :=
  .ok none

/-- `ParseTrojanNodeResponse` from `pmpanel.go`: the body is fully commented
out; the function returns `nil, nil`. -/
def ParseTrojanNodeResponse (c : APIClient) (nodeInfoResponse : NodeInfoResponse) :
    Except String (Option NodeInfo) :=
  .ok none

/-- `ParseSSNodeResponse` from `pmpanel.go`: speed limit is the local override
when positive, else the panel value, converted by `uint64((v * 1000000) / 8)`;
port, cipher method and server key are copied; transport protocol is fixed to
"tcp". -/
def ParseSSNodeResponse (c : APIClient) (nodeInfoResponse : NodeInfoResponse) :
    Except String (Option NodeInfo) :=
  let speedLimit : ℕ :=
    if c.SpeedLimit > 0 then (⌊(c.SpeedLimit * 1000000) / 8⌋).toNat
    else (⌊(nodeInfoResponse.SpeedLimit * 1000000) / 8⌋).toNat
  .ok (some
    { NodeType := c.NodeType
      NodeID := c.NodeID
      Port := nodeInfoResponse.Port
      SpeedLimit := speedLimit
      TransportProtocol := "tcp"
      CypherMethod := nodeInfoResponse.Method
      ServerKey := nodeInfoResponse.ServerKey })

/-- The dispatch stage of `GetNodeInfo` from `pmpanel.go` (the preceding
transport exchange and JSON unmarshalling are modelled upstream): a `switch`
on the stored, un-lowercased `NodeType` against the exact spellings "V2ray",
"Trojan", "Shadowsocks"; any other value is the unsupported-node-type error. -/
def GetNodeInfo (c : APIClient) (nodeInfoResponse : NodeInfoResponse) :
    Except String (Option NodeInfo) :=
  if c.NodeType = "V2ray" then ParseV2rayNodeResponse c nodeInfoResponse
  else if c.NodeType = "Trojan" then ParseTrojanNodeResponse c nodeInfoResponse
  else if c.NodeType = "Shadowsocks" then ParseSSNodeResponse c nodeInfoResponse
  else .error ("unsupported Node type: " ++ c.NodeType)

/-- Modelled from the spec: `UserResponse` (declared outside `src/`), one
panel user record, with the fields the live code reads; the speed limit is in
Mbps. -/
structure UserResponse where
  ID : Int
  Passwd : String
  SpeedLimit : ℚ
  DeviceLimit : Int
  deriving Repr, DecidableEq

/-- Modelled from the spec: `api.UserInfo` (declared outside `src/`), the
canonical user record, with the fields the live code sets; the speed limit is
in bytes/sec (`uint64`). -/
structure UserInfo where
  UID : Int
  Passwd : String
  UUID : String
  SpeedLimit : ℕ
  DeviceLimit : Int
  deriving Repr, DecidableEq

/-- The loop body of `ParseUserListResponse` from `pmpanel.go`: per-user
override resolution for device and speed limits, and construction of the
canonical record with the credential copied into both `Passwd` and `UUID`. -/
def parseUserRecord (c : APIClient) (user : UserResponse) : UserInfo :=
  let deviceLimit : Int :=
    if c.DeviceLimit > 0 then c.DeviceLimit else user.DeviceLimit
  let speedLimit : ℕ :=
    if c.SpeedLimit > 0 then (⌊(c.SpeedLimit * 1000000) / 8⌋).toNat
    else (⌊(user.SpeedLimit * 1000000) / 8⌋).toNat
  { UID := user.ID
    Passwd := user.Passwd
    UUID := user.Passwd
    SpeedLimit := speedLimit
    DeviceLimit := deviceLimit }

/-- `ParseUserListResponse` from `pmpanel.go`: the loop writes position `i` of
the output from position `i` of the input; the Go function's error result is
always `nil`, so it is elided. -/
def ParseUserListResponse (c : APIClient) (userInfoResponse : List UserResponse) :
    List UserInfo :=
  userInfoResponse.map (parseUserRecord c)

/-- Modelled from the spec: `api.DetectResult` (declared outside `src/`), one
detected illegal behavior (user and matched rule). -/
structure DetectResult where
  UID : Int
  RuleID : Int
  deriving Repr, DecidableEq

/-- `GetNodeRule` from `pmpanel.go`: returns the locally cached rule list; the
remote fetch is commented out, so the list of issued request paths is empty. -/
def GetNodeRule (c : APIClient) : List DetectRule × List String :=
  (c.LocalRuleList, [])

/-- `ReportIllegal` from `pmpanel.go`: returns `nil` without doing anything;
no request path is issued. -/
def ReportIllegal (c : APIClient) (detectResultList : List DetectResult) :
    Option ApiError × List String :=
  (none, [])

/-- Modelled from the spec: `api.NodeStatus` (declared outside `src/`), the
node health scalars. -/
structure NodeStatus where
  CPU : ℚ
  Mem : ℚ
  Disk : ℚ
  Uptime : ℕ
  deriving Repr, DecidableEq

/-- `ReportNodeStatus` from `pmpanel.go`, for contrast with the stubbed
operations: it posts to `/api/node/status` (one issued request path) and
classifies the outcome through `parseResponse`. -/
def ReportNodeStatus (c : APIClient) (nodeStatus : NodeStatus) (res : Response)
    (err : Option String) : Option ApiError × List String :=
  (match parseResponse c res "/api/node/status" err with
   | .ok _ => none
   | .error e => some e,
   ["/api/node/status"])

/-- The spec's megabit-per-second to bytes-per-second conversion:
`v * 1_000_000 / 8`, truncated to an unsigned integer. -/
def mbpsToBps (v : ℚ) : ℕ :=
  (⌊(v * 1000000) / 8⌋).toNat

/-- Example client: a Shadowsocks client with no local overrides. -/
def cShadow : APIClient :=
  { APIHost := "http://panel.example"
    NodeID := "42"
    Key := "secret"
    NodeType := "Shadowsocks"
    EnableVless := false
    VlessFlow := ""
    SpeedLimit := 0
    DeviceLimit := 0
    LocalRuleList := [] }

/-- Example client: a Shadowsocks client with positive local overrides. -/
def cOverride : APIClient :=
  { cShadow with SpeedLimit := 100, DeviceLimit := 3 }

/-- Example file system with no readable file. -/
def fsEmpty : FileSystem := fun _ => none

/-- Example panel node payload. -/
def respEx : NodeInfoResponse :=
  { SpeedLimit := 100, Port := 8443, Method := "aes-256-gcm", ServerKey := "k1" }

/-- Example panel user record. -/
def userEx : UserResponse :=
  { ID := 7, Passwd := "tok-123", SpeedLimit := 100, DeviceLimit := 5 }

/-- The node descriptor produced from `respEx` by a Shadowsocks client whose
override equals the panel value (100 Mbps), or with no override at all. -/
def niOver : NodeInfo :=
  { NodeType := "Shadowsocks"
    NodeID := "42"
    Port := 8443
    SpeedLimit := 12500000
    TransportProtocol := "tcp"
    CypherMethod := "aes-256-gcm"
    ServerKey := "k1" }

/-- Example configuration whose node type is spelled in lower case. -/
def cfgLower : Config :=
  { APIHost := "http://panel.example"
    NodeID := "42"
    Key := "secret"
    NodeType := "shadowsocks"
    EnableVless := false
    VlessFlow := ""
    SpeedLimit := 0
    DeviceLimit := 0
    RuleListPath := ""
    Timeout := 0 }

/-- Example configuration with an unsupported node type. -/
def cfgWireguard : Config :=
  { cfgLower with NodeType := "wireguard" }

/-- Example file system holding one readable three-line rule file. -/
def fsRules : FileSystem := fun _ => some ["abc", "d.*e", "^foo$"]

/- Theorems -/

/-- On a natural number of Mbps the rational conversion agrees with natural
division: `⌊(v * 1000000) / 8⌋.toNat = v * 1000000 / 8`. -/
theorem floor_conv_natCast (v : ℕ) :
    (⌊((v : ℚ) * 1000000) / 8⌋).toNat = v * 1000000 / 8 := by
  rw [Int.floor_toNat]
  have h : (v : ℚ) * 1000000 = ((v * 1000000 : ℕ) : ℚ) := by push_cast; ring
  rw [h, Nat.floor_div_ofNat, Nat.floor_natCast]

/-- C6: parsing the Shadowsocks panel payload with port 8443, method
"aes-256-gcm", server key "k1" and speed limit 100 Mbps, with no local
override, yields a descriptor with port 8443, transport "tcp", speed limit
12500000 bytes/sec, cipher "aes-256-gcm" and key "k1". -/
theorem ss_end_to_end :
    ParseSSNodeResponse cShadow respEx
      = .ok (some
        { NodeType := "Shadowsocks"
          NodeID := "42"
          Port := 8443
          SpeedLimit := 12500000
          TransportProtocol := "tcp"
          CypherMethod := "aes-256-gcm"
          ServerKey := "k1" }) := by
  simp only [ParseSSNodeResponse, cShadow, respEx]
  norm_num
  rfl

/-- The speed limit field produced by `ParseSSNodeResponse` is the override
conversion when the override is positive, else the panel-value conversion. -/
theorem ParseSSNodeResponse_speedLimit (c : APIClient) (resp : NodeInfoResponse)
    (ni : NodeInfo) (h : ParseSSNodeResponse c resp = .ok (some ni)) :
    ni.SpeedLimit =
      if c.SpeedLimit > 0 then (⌊(c.SpeedLimit * 1000000) / 8⌋).toNat
      else (⌊(resp.SpeedLimit * 1000000) / 8⌋).toNat := by
  simp only [ParseSSNodeResponse, Except.ok.injEq, Option.some.injEq] at h
  rw [← h]

/-- C1: positive local overrides win over the panel value for both the node
speed limit and the per-user speed and device limits; non-positive overrides
fall back to the panel-supplied value (with the Mbps to bytes/sec conversion
for speed). -/
theorem override_precedence_limits (c : APIClient) (resp : NodeInfoResponse)
    (user : UserResponse) (ni : NodeInfo)
    (hss : ParseSSNodeResponse c resp = .ok (some ni)) :
    (c.SpeedLimit > 0 →
      ni.SpeedLimit = mbpsToBps c.SpeedLimit ∧
      (parseUserRecord c user).SpeedLimit = mbpsToBps c.SpeedLimit) ∧
    (¬c.SpeedLimit > 0 →
      ni.SpeedLimit = mbpsToBps resp.SpeedLimit ∧
      (parseUserRecord c user).SpeedLimit = mbpsToBps user.SpeedLimit) ∧
    (c.DeviceLimit > 0 → (parseUserRecord c user).DeviceLimit = c.DeviceLimit) ∧
    (¬c.DeviceLimit > 0 →
      (parseUserRecord c user).DeviceLimit = user.DeviceLimit) := by
  have hni := ParseSSNodeResponse_speedLimit c resp ni hss
  refine ⟨fun h => ?_, fun h => ?_, fun h => ?_, fun h => ?_⟩ <;>
    simp [hni, parseUserRecord, mbpsToBps, h]

/-- C1 witness: a client whose overrides are 100 Mbps and 3 devices. -/
theorem override_precedence_limits_witness :
    (cOverride.SpeedLimit > 0 →
      niOver.SpeedLimit = mbpsToBps cOverride.SpeedLimit ∧
      (parseUserRecord cOverride userEx).SpeedLimit = mbpsToBps cOverride.SpeedLimit) ∧
    (¬cOverride.SpeedLimit > 0 →
      niOver.SpeedLimit = mbpsToBps respEx.SpeedLimit ∧
      (parseUserRecord cOverride userEx).SpeedLimit = mbpsToBps userEx.SpeedLimit) ∧
    (cOverride.DeviceLimit > 0 →
      (parseUserRecord cOverride userEx).DeviceLimit = cOverride.DeviceLimit) ∧
    (¬cOverride.DeviceLimit > 0 →
      (parseUserRecord cOverride userEx).DeviceLimit = userEx.DeviceLimit) :=
  override_precedence_limits cOverride respEx userEx niOver
    (by simp only [ParseSSNodeResponse, cOverride, cShadow, respEx, niOver]
        norm_num
        rfl)

/-- C2: a non-nil transport error short-circuits into a connectivity failure
carrying the assembled target URL; otherwise status 200 passes the body
through, 400/401/403 map to bad-request/unauthorized/forbidden, and any other
non-200 status maps to the upstream error carrying the status and body. -/
theorem parseResponse_classification (c : APIClient) (res : Response)
    (path e : String) :
    parseResponse c res path (some e)
        = .error (.requestFailed (assembleURL c path) e) ∧
    (res.statusCode = 200 → parseResponse c res path none = .ok res.body) ∧
    (res.statusCode = 400 → parseResponse c res path none
        = .error (.badRequest (assembleURL c path) res.body)) ∧
    (res.statusCode = 401 → parseResponse c res path none
        = .error (.unauthorized (assembleURL c path) res.body)) ∧
    (res.statusCode = 403 → parseResponse c res path none
        = .error (.forbidden (assembleURL c path) res.body)) ∧
    (res.statusCode ≠ 200 → res.statusCode ≠ 400 → res.statusCode ≠ 401 →
      res.statusCode ≠ 403 →
      parseResponse c res path none
        = .error (.statusCodeError (assembleURL c path) res.statusCode res.body)) := by
  refine ⟨rfl, fun h => ?_, fun h => ?_, fun h => ?_, fun h => ?_,
    fun h1 h2 h3 h4 => ?_⟩
  · simp [parseResponse, h]
  · simp [parseResponse, h]
  · simp [parseResponse, h]
  · simp [parseResponse, h]
  · simp [parseResponse, h1, h2, h3, h4]

/-- C2 witness: a 404 response classifies as the upstream status-code error. -/
theorem parseResponse_classification_witness :
    parseResponse cShadow { statusCode := 404, body := "oops" } "/api/node/user" none
      = .error (.statusCodeError (assembleURL cShadow "/api/node/user") 404 "oops") :=
  (parseResponse_classification cShadow { statusCode := 404, body := "oops" }
      "/api/node/user" "e").2.2.2.2.2
    (by decide) (by decide) (by decide) (by decide)

/-- C3: a configuration whose node type lowercases into the accepted set but
differs from the exact spellings "Shadowsocks", "V2ray", "Trojan" constructs a
client successfully, yet `GetNodeInfo` dispatch yields the unsupported-node-
type error. -/
theorem accepted_casing_unsupported_dispatch (cfg : Config) (fs : FileSystem)
    (resp : NodeInfoResponse)
    (hacc : stringsToLower cfg.NodeType = "shadowsocks" ∨
      stringsToLower cfg.NodeType = "v2ray" ∨
      stringsToLower cfg.NodeType = "trojan")
    (hne : cfg.NodeType ≠ "Shadowsocks" ∧ cfg.NodeType ≠ "V2ray" ∧
      cfg.NodeType ≠ "Trojan") :
    ∃ c : APIClient, New cfg fs = some c ∧
      GetNodeInfo c resp = .error ("unsupported Node type: " ++ cfg.NodeType) := by
  have hguard : ¬(stringsToLower cfg.NodeType ≠ "shadowsocks" ∧
      stringsToLower cfg.NodeType ≠ "v2ray" ∧
      stringsToLower cfg.NodeType ≠ "trojan") := by
    rcases hacc with h | h | h <;> simp [h]
  refine ⟨⟨cfg.APIHost, cfg.NodeID, cfg.Key, cfg.NodeType, cfg.EnableVless,
    cfg.VlessFlow, cfg.SpeedLimit, cfg.DeviceLimit,
    readLocalRuleList cfg.RuleListPath fs⟩, ?_, ?_⟩
  · simp only [New]
    rw [if_neg hguard]
  · obtain ⟨h1, h2, h3⟩ := hne
    simp [GetNodeInfo, h1, h2, h3]

/-- C3 witness: the spelling "shadowsocks" is accepted by construction but
rejected by `GetNodeInfo` dispatch. -/
theorem accepted_casing_unsupported_dispatch_witness :
    ∃ c : APIClient, New cfgLower fsEmpty = some c ∧
      GetNodeInfo c respEx
        = .error ("unsupported Node type: " ++ cfgLower.NodeType) :=
  accepted_casing_unsupported_dispatch cfgLower fsEmpty respEx
    (by decide) (by decide)

/-- C4: user roster parsing preserves length, and position `i` of the output
is the per-record translation of position `i` of the input. -/
theorem roster_order_length (c : APIClient) (l : List UserResponse) :
    (ParseUserListResponse c l).length = l.length ∧
    ∀ i : ℕ, (ParseUserListResponse c l)[i]? = (l[i]?).map (parseUserRecord c) := by
  refine ⟨by simp [ParseUserListResponse], fun i => ?_⟩
  simp [ParseUserListResponse]

/-- C5: for a whole number of Mbps `v`, the effective speed limit computed by
node parsing and by user parsing, on both the panel path and the override
path, is exactly `v * 1000000 / 8` with integer truncation. -/
theorem speed_conversion_exact (v : ℕ) (cPanel cOver : APIClient)
    (resp : NodeInfoResponse) (user : UserResponse) (niP niO : NodeInfo)
    (hcP : ¬cPanel.SpeedLimit > 0) (hrP : resp.SpeedLimit = (v : ℚ))
    (huP : user.SpeedLimit = (v : ℚ))
    (hcO : cOver.SpeedLimit = (v : ℚ)) (hv : 0 < v)
    (hniP : ParseSSNodeResponse cPanel resp = .ok (some niP))
    (hniO : ParseSSNodeResponse cOver resp = .ok (some niO)) :
    niP.SpeedLimit = v * 1000000 / 8 ∧
    (parseUserRecord cPanel user).SpeedLimit = v * 1000000 / 8 ∧
    niO.SpeedLimit = v * 1000000 / 8 ∧
    (parseUserRecord cOver user).SpeedLimit = v * 1000000 / 8 := by
  have hvQ : (0 : ℚ) < (v : ℚ) := by exact_mod_cast hv
  have hO : cOver.SpeedLimit > 0 := by rw [hcO]; exact hvQ
  have h1 := ParseSSNodeResponse_speedLimit cPanel resp niP hniP
  have h2 := ParseSSNodeResponse_speedLimit cOver resp niO hniO
  refine ⟨?_, ?_, ?_, ?_⟩
  · rw [h1, if_neg hcP, hrP, floor_conv_natCast]
  · simp only [parseUserRecord]
    rw [if_neg hcP, huP, floor_conv_natCast]
  · rw [h2, if_pos hO, hcO, floor_conv_natCast]
  · simp only [parseUserRecord]
    rw [if_pos hO, hcO, floor_conv_natCast]

/-- C5 witness: at 100 Mbps all four computed limits are 12500000 bytes/sec. -/
theorem speed_conversion_exact_witness :
    niOver.SpeedLimit = 100 * 1000000 / 8 ∧
    (parseUserRecord cShadow userEx).SpeedLimit = 100 * 1000000 / 8 ∧
    niOver.SpeedLimit = 100 * 1000000 / 8 ∧
    (parseUserRecord cOverride userEx).SpeedLimit = 100 * 1000000 / 8 :=
  speed_conversion_exact 100 cShadow cOverride respEx userEx niOver niOver
    (by norm_num [cShadow]) (by norm_num [respEx]) (by norm_num [userEx])
    (by norm_num [cOverride, cShadow]) (by norm_num)
    (by simp only [ParseSSNodeResponse, cShadow, respEx, niOver]
        norm_num
        rfl)
    (by simp only [ParseSSNodeResponse, cOverride, cShadow, respEx, niOver]
        norm_num
        rfl)

/-- C7: an empty path yields no rules regardless of the file system; a
non-empty unreadable path yields no rules; a readable three-line file yields
three rules in file order, each with identifier -1 and the line as pattern. -/
theorem rule_loader_contract (fs fs2 fs3 : FileSystem) (path p3 : String)
    (hpath : path ≠ "") (hunread : fs2 path = none)
    (hp3 : p3 ≠ "") (hread : fs3 p3 = some ["abc", "d.*e", "^foo$"]) :
    readLocalRuleList "" fs = [] ∧
    readLocalRuleList path fs2 = [] ∧
    readLocalRuleList p3 fs3 =
      [{ ID := -1, Pattern := "abc" }, { ID := -1, Pattern := "d.*e" },
        { ID := -1, Pattern := "^foo$" }] := by
  refine ⟨rfl, ?_, ?_⟩
  · simp [readLocalRuleList, hpath, hunread]
  · simp [readLocalRuleList, hp3, hread]

/-- C7 witness: the loader evaluated on a concrete unreadable and a concrete
readable file system. -/
theorem rule_loader_contract_witness :
    readLocalRuleList "" fsEmpty = [] ∧
    readLocalRuleList "/etc/rules" fsEmpty = [] ∧
    readLocalRuleList "/etc/rules" fsRules =
      [{ ID := -1, Pattern := "abc" }, { ID := -1, Pattern := "d.*e" },
        { ID := -1, Pattern := "^foo$" }] :=
  rule_loader_contract fsEmpty fsEmpty fsRules "/etc/rules" "/etc/rules"
    (by decide) rfl (by decide) rfl

/-- C8: a node type whose lowercasing is outside the accepted set makes
construction return no client. -/
theorem unsupported_node_type_construction (cfg : Config) (fs : FileSystem)
    (h : stringsToLower cfg.NodeType ≠ "shadowsocks" ∧
      stringsToLower cfg.NodeType ≠ "v2ray" ∧
      stringsToLower cfg.NodeType ≠ "trojan") :
    New cfg fs = none := by
  simp only [New]
  rw [if_pos h]

/-- C8 witness: "wireguard" is rejected at construction. -/
theorem unsupported_node_type_construction_witness :
    New cfgWireguard fsEmpty = none :=
  unsupported_node_type_construction cfgWireguard fsEmpty (by decide)

/-- C9: fetching audit rules returns exactly the locally cached rule list and
issues no request; reporting illegal behavior succeeds and issues no
request. -/
theorem stub_operations_local_only (c : APIClient) (l : List DetectResult) :
    GetNodeRule c = (c.LocalRuleList, ([] : List String)) ∧
    ReportIllegal c l = (none, ([] : List String)) :=
  ⟨rfl, rfl⟩

/-- C10: the panel credential is copied into both the password and the UUID
field of the produced user record. -/
theorem credential_aliasing (c : APIClient) (user : UserResponse) :
    (parseUserRecord c user).Passwd = user.Passwd ∧
    (parseUserRecord c user).UUID = user.Passwd :=
  ⟨rfl, rfl⟩

end NoharaNode
